import Mathlib

set_option maxRecDepth 100000

/-!
Verification of `analista.py`: a single-pass batch script that, for each
company in a CSV list, runs a research step, compiles a structured report
(`AnaliseAcionaria`) and writes a Markdown file, sleeping a fixed delay
between companies.  The Python source is shallowly embedded below:
pure string manipulation becomes Lean functions on `String`/`List Char`,
the filesystem becomes an explicit state, the two remote LLM calls become
per-company outcome parameters, and exceptions become `Except`.
-/

namespace Analista

/-! ### String utilities (model of Python `in`, `replace`, `join`, `upper`) -/

/-- Model of list-prefix testing used to implement Python's substring `in`. -/
def charsStartWith : List Char → List Char → Bool
  | [], _ => true
  | _ :: _, [] => false
  | c :: cs, d :: ds => c == d && charsStartWith cs ds

/-- Model of Python's `needle in hay` on the character lists. -/
def charsContain (needle : List Char) : List Char → Bool
  | [] => needle.isEmpty
  | d :: ds => charsStartWith needle (d :: ds) || charsContain needle ds

/-- Python's substring test `needle in hay` on strings. -/
def hasSubstr (needle hay : String) : Bool :=
  charsContain needle.data hay.data

/-- Python's `s.replace(old, new)` at the single-character call sites of the
source (`.replace(' ', '_')`). -/
def replaceChar (s : String) (old new : Char) : String :=
  String.mk (s.data.map (fun c => if c == old then new else c))

/-- Python's `s.replace(old, '')` at the single-character call sites of the
source (`.replace('(', '')` and `.replace(')', '')`). -/
def removeChar (s : String) (old : Char) : String :=
  String.mk (s.data.filter (fun c => c != old))

/-- Python's `s.upper()` at the renderer's call site: upper-case each
character (the source's recommendation values are ASCII). -/
def pyUpper (s : String) : String :=
  String.mk (s.data.map Char.toUpper)

/-- Python's `sep.join(xs)`. -/
def joinSep (sep : String) : List String → String
  | [] => ""
  | [x] => x
  | x :: y :: xs => x ++ sep ++ joinSep sep (y :: xs)

/-! ### Document-fact stub (`consult_document_rag`, analista.py lines 34-62)

The three canned paragraphs are written here with the common indentation
already stripped, exactly as Python's `textwrap.dedent` leaves them. -/

/-- The fixed "no data" sentence returned when no valid URL is supplied. -/
def noDataMsg : String :=
  "Nenhum URL de relatório financeiro válido foi fornecido. Dados fundamentalistas indisponíveis."

/-- The NFLX-specific hard-coded financial paragraph (after `dedent`). -/
def nflxRag : String :=
  "\nAnálise RAG do 10-K (2023): A Receita totalizou $33.7 bilhões, um aumento de 6.7% A/A.\nO Lucro Líquido foi de $5.4 bilhões. O Fluxo de Caixa Livre (FCF) foi robusto em $6.9 bilhões,\nindicando forte geração de caixa e saúde financeira.\n"

/-- The TSLA-specific hard-coded financial paragraph (after `dedent`). -/
def tslaRag : String :=
  "\nAnálise RAG do 10-K (2023): A Receita atingiu $96.8 bilhões. Lucro Líquido: $15.0 bilhões.\nO FCF foi de $4.4 bilhões. O relatório destaca margens de lucro sob pressão devido a cortes de preços.\n"

/-- The generic fallback paragraph (after `dedent`). -/
def genericRag : String :=
  "\nAnálise RAG (Simulada): Receita de $150 bilhões no último ano. Lucro líquido de $40 bilhões. \nA empresa reportou forte recompra de ações e foca em serviços para crescimento futuro.\n"

/-- `consult_document_rag` (analista.py lines 34-62): deterministic stub from
the URL string to one of four fixed text blocks. -/
def consult_document_rag (report_url : String) : String :=
  if report_url == "" || hasSubstr "N/A" report_url || hasSubstr "Sem URL" report_url then
    noDataMsg
  else if hasSubstr "NFLX" report_url then
    nflxRag
  else if hasSubstr "TSLA" report_url then
    tslaRag
  else
    genericRag

/-! ### Company list loader (`ler_lista_empresas_csv`, lines 66-88)

A CSV row parsed by `csv.DictReader` is an association of column names to
values; `lookupKey` models Python's `row[key]`, returning `none` where
Python raises `KeyError`.  The input file is modelled as a state that is
missing, present with parsed rows, or unreadable (any `OSError` other than
`FileNotFoundError`, e.g. permission denied). -/

/-- A parsed CSV row: column name to value. -/
abbrev Row := List (String × String)

/-- `row[key]` of Python: `none` models an uncaught `KeyError`. -/
def lookupKey (row : Row) (key : String) : Option String :=
  (row.find? (fun p => p.1 == key)).map Prod.snd

/-- The two default rows written when the input file is missing
(analista.py lines 78-81). -/
def exemplo_data : List Row :=
  [[("Empresa", "Netflix"), ("Ticker", "NFLX"), ("Relatorio_URL", "N/A - Sem URL")],
   [("Empresa", "Tesla"), ("Ticker", "TSLA"), ("Relatorio_URL", "N/A - Sem URL")]]

/-- State of the input CSV file as the loader can observe it. -/
inductive FileState
  | missing
  | present (rows : List Row)
  | unreadable (msg : String)
deriving DecidableEq, Repr

/-- `ler_lista_empresas_csv` (lines 66-88): read the company rows; on
`FileNotFoundError` create the file with `exemplo_data` and return those
rows; any other I/O error propagates. Returns the loaded rows together
with the file state after the call. -/
def ler_lista_empresas_csv : FileState → Except String (List Row × FileState)
  | .present rows => .ok (rows, .present rows)
  | .missing => .ok (exemplo_data, .present exemplo_data)
  | .unreadable msg => .error msg

/-! ### Report record (`AnaliseAcionaria`, lines 21-30) -/

/-- The structured report record produced for each company. -/
structure AnaliseAcionaria where
  data_relatorio : String
  empresa : String
  valor_atual_acao : String
  sumario_executivo : String
  noticias_relevantes : List String
  analise_financeira_resumida : String
  sentimento_geral : String
  recomendacao_simplificada : String
deriving DecidableEq, Repr

/-! ### Report writer (driver loop, lines 194-229) -/

/-- `file_name_clean` (line 195):
`empresa_nome_completo.replace(' ', '_').replace('(', '').replace(')', '')`. -/
def file_name_clean (label : String) : String :=
  removeChar (removeChar (replaceChar label ' ' '_') '(') ')'

/-- `final_report_markdown` (lines 197-226): the dedented f-string rendered
from the report record, with `today` the value of `str(date.today())` at
render time.  The surrounding `dedent` is the identity here because several
template lines start at column zero. -/
def final_report_markdown (today : String) (r : AnaliseAcionaria) : String :=
  "\n# 📄 Relatório de Análise Acionária: " ++ r.empresa ++
  "\n**Data da Análise:** " ++ today ++
  "\n\n---\n\n## I. Sumário Executivo\n" ++ r.sumario_executivo ++
  "\n\n| Indicador | Detalhe |\n| :--- | :--- |\n| **Valor Atual da Ação** | **" ++
  r.valor_atual_acao ++
  "** |\n| **Recomendação** | **" ++ pyUpper r.recomendacao_simplificada ++
  "** |\n| **Sentimento Geral** | " ++ r.sentimento_geral ++
  " |\n\n---\n\n## II. Contexto e Notícias Relevantes\n### Destaques das Últimas Notícias\n* " ++
  joinSep "\n* " r.noticias_relevantes ++
  "\n\n---\n\n## III. Análise Fundamentalista (Resumo de Documentos Oficiais - RAG)\n" ++
  r.analise_financeira_resumida ++
  "\n\n---\n\n**Nota:** A análise fundamentalista foi extraída da URL fornecida e processada pela ferramenta RAG (atualmente em modo simulação).\n"

/-- Output directory: later writes shadow earlier ones, as
`open(..., "w")` overwrites a file of the same name. -/
abbrev Files := List (String × String)

/-- Write (or overwrite) one output file. -/
def writeFile (files : Files) (name content : String) : Files :=
  (name, content) :: files

/-- Current content of an output file, if it exists. -/
def readFile (files : Files) (name : String) : Option String :=
  (files.find? (fun p => p.1 == name)).map Prod.snd

/-! ### Driver loop (lines 159-244)

The two remote LLM calls are opaque: each company's iteration is given the
outcome its two calls would have (success with a result, or a raised
exception stringified to a message).  `processCompanies` is the loop; a
`KeyError` on the row accesses of lines 163-164 occurs outside both
`try` blocks and aborts the run (`Except.error`). -/

/-- Outcome of `agent_executor_researcher.invoke` for one company. -/
inductive ResearchOutcome
  | ok (facts : String)
  | err (msg : String)
deriving DecidableEq, Repr

/-- Outcome of `relator_chain.invoke` (plus the file write) for one company. -/
inductive ReportOutcome
  | ok (r : AnaliseAcionaria)
  | err (msg : String)
deriving DecidableEq, Repr

/-- `true` when the research call returned normally. -/
def ResearchOutcome.isOk : ResearchOutcome → Bool
  | .ok _ => true
  | .err _ => false

/-- Observable trace of one company's iteration: the company label built on
line 163, the `fatos_consolidados` value, the error message printed by an
`except` branch (if any), the file written (if any), and whether the
iteration reached the `time.sleep(DELAY_SECONDS)` on line 240. -/
structure IterResult where
  label : String
  fatos : String
  errLog : Option String
  wrote : Option String
  slept : Bool
deriving DecidableEq, Repr

/-- One pass of the `for dados_empresa in empresas_para_analisar` loop
(lines 162-240), over the remaining companies paired with their call
outcomes.  Returns the final output files, the number of executed sleeps,
and the per-company trace. -/
def processCompanies (today : String) (files : Files) :
    List (Row × ResearchOutcome × ReportOutcome) →
    Except String (Files × Nat × List IterResult)
  | [] => .ok (files, 0, [])
  | (row, ro, po) :: rest =>
    match lookupKey row "Empresa" with
    | none => .error "KeyError: Empresa"
    | some empresa =>
      match lookupKey row "Ticker" with
      | none => .error "KeyError: Ticker"
      | some ticker =>
        let empresa_nome_completo := empresa ++ " (" ++ ticker ++ ")"
        match lookupKey row "Relatorio_URL" with
        | none => .error "KeyError: Relatorio_URL"
        | some _relatorio_url =>
          match ro with
          | .err e =>
            -- lines 182-185: placeholder assigned, error printed, `continue`
            -- jumps past the report block and past the sleep on line 240
            let fatos := "Erro na pesquisa web para " ++ empresa_nome_completo ++ ": " ++ e
            let log := "❌ [ERRO NA PESQUISA] Falha na coleta de dados para " ++
              empresa_nome_completo ++ "."
            match processCompanies today files rest with
            | .error m => .error m
            | .ok (fs, n, tr) =>
              .ok (fs, n, ⟨empresa_nome_completo, fatos, some log, none, false⟩ :: tr)
          | .ok fatos_consolidados =>
            match po with
            | .err e =>
              -- lines 234-235: caught and printed, no file, sleep still runs
              let log := "❌ [ERRO NA GERAÇÃO] Falha na estruturação JSON do relatório para " ++
                empresa_nome_completo ++ ": " ++ e
              match processCompanies today files rest with
              | .error m => .error m
              | .ok (fs, n, tr) =>
                .ok (fs, n + 1, ⟨empresa_nome_completo, fatos_consolidados, some log, none, true⟩ :: tr)
            | .ok relatorio_objeto =>
              -- lines 194-229: render and save, then sleep
              let name := "Relatorio_" ++ file_name_clean empresa_nome_completo ++ ".md"
              let files2 := writeFile files name (final_report_markdown today relatorio_objeto)
              match processCompanies today files2 rest with
              | .error m => .error m
              | .ok (fs, n, tr) =>
                .ok (fs, n + 1, ⟨empresa_nome_completo, fatos_consolidados, none, some name, true⟩ :: tr)

/-- `DELAY_SECONDS` (line 238): the fixed pacing delay in seconds. -/
def DELAY_SECONDS : Nat := 7

/-- Number of companies whose research call returned normally. -/
def countResearchOk (items : List (Row × ResearchOutcome × ReportOutcome)) : Nat :=
  (items.filter (fun it => it.2.1.isOk)).length

/-- The whole script run (lines 160-244): load the company list, then run
the loop, pairing the i-th loaded row with the i-th pair of call outcomes. -/
def runMain (today : String) (fs : FileState)
    (outcomes : List (ResearchOutcome × ReportOutcome)) :
    Except String (Files × Nat × List IterResult) :=
  match ler_lista_empresas_csv fs with
  | .error m => .error m
  | .ok (rows, _) => processCompanies today [] (rows.zip outcomes)

/-! ### Helper lemmas on the string utilities -/

theorem charsStartWith_append_self (n rest : List Char) :
    charsStartWith n (n ++ rest) = true := by
  induction n with
  | nil => rfl
  | cons c cs ih => simp [charsStartWith, ih]

theorem charsContain_nil (hay : List Char) : charsContain [] hay = true := by
  cases hay with
  | nil => rfl
  | cons d ds => simp [charsContain, charsStartWith]

theorem charsContain_append_self (pre n suf : List Char) :
    charsContain n (pre ++ (n ++ suf)) = true := by
  induction pre with
  | nil =>
    cases n with
    | nil => simpa using charsContain_nil suf
    | cons c cs =>
      have h := charsStartWith_append_self (c :: cs) suf
      simp only [List.cons_append] at h
      simp [charsContain, List.append_eq, h]
  | cons p ps ih =>
    simp [charsContain, List.append_eq] at ih ⊢
    simp [ih]

theorem hasSubstr_sandwich (a s b : String) : hasSubstr s (a ++ s ++ b) = true := by
  unfold hasSubstr
  rw [String.append_assoc, String.data_append, String.data_append]
  exact charsContain_append_self a.data s.data b.data

theorem hasSubstr_of_suffix (a s : String) : hasSubstr s (a ++ s) = true := by
  unfold hasSubstr
  rw [String.data_append]
  have := charsContain_append_self a.data s.data []
  simpa using this

/-- Processing a concatenated company list is the same as processing the
first part and continuing on the second from the resulting file store;
an abort in the first part aborts the whole run. -/
theorem processCompanies_append (today : String)
    (xs : List (Row × ResearchOutcome × ReportOutcome)) :
    ∀ (files : Files) (ys : List (Row × ResearchOutcome × ReportOutcome)),
    processCompanies today files (xs ++ ys) =
      match processCompanies today files xs with
      | .error m => .error m
      | .ok (fs, n, tr) =>
        match processCompanies today fs ys with
        | .error m => .error m
        | .ok (fs2, n2, tr2) => .ok (fs2, n + n2, tr ++ tr2) := by
  induction xs with
  | nil =>
    intro files ys
    simp only [List.nil_append, processCompanies]
    cases h : processCompanies today files ys with
    | error m => rfl
    | ok t =>
      obtain ⟨fs2, n2, tr2⟩ := t
      simp
  | cons hd tl ih =>
    intro files ys
    obtain ⟨row, ro, po⟩ := hd
    cases hE : lookupKey row "Empresa" with
    | none => simp [processCompanies, hE]
    | some empresa =>
    cases hT : lookupKey row "Ticker" with
    | none => simp [processCompanies, hE, hT]
    | some ticker =>
    cases hU : lookupKey row "Relatorio_URL" with
    | none => simp [processCompanies, hE, hT, hU]
    | some url =>
    cases ro with
    | err e =>
      simp only [List.cons_append, processCompanies, hE, hT, hU, List.append_eq]
      rw [ih files ys]
      cases h1 : processCompanies today files tl with
      | error m => rfl
      | ok t =>
        obtain ⟨fs, n, tr⟩ := t
        cases h2 : processCompanies today fs ys with
        | error m => simp [h2]
        | ok t2 =>
          obtain ⟨fs2, n2, tr2⟩ := t2
          simp [h2]
    | ok facts =>
      cases po with
      | err e =>
        simp only [List.cons_append, processCompanies, hE, hT, hU, List.append_eq]
        rw [ih files ys]
        cases h1 : processCompanies today files tl with
        | error m => rfl
        | ok t =>
          obtain ⟨fs, n, tr⟩ := t
          cases h2 : processCompanies today fs ys with
          | error m => simp [h2]
          | ok t2 =>
            obtain ⟨fs2, n2, tr2⟩ := t2
            simp [h2]
            omega
      | ok r =>
        simp only [List.cons_append, processCompanies, hE, hT, hU, List.append_eq]
        rw [ih]
        cases h1 : processCompanies today
            (writeFile files
              ("Relatorio_" ++ file_name_clean (empresa ++ " (" ++ ticker ++ ")") ++ ".md")
              (final_report_markdown today r)) tl with
        | error m => rfl
        | ok t =>
          obtain ⟨fs, n, tr⟩ := t
          cases h2 : processCompanies today fs ys with
          | error m => simp [h2]
          | ok t2 =>
            obtain ⟨fs2, n2, tr2⟩ := t2
            simp [h2]
            omega

theorem filter_filter_chars (p q : Char → Bool) (l : List Char) :
    (l.filter p).filter q = l.filter (fun c => p c && q c) := by
  induction l with
  | nil => rfl
  | cons c cs ih =>
    by_cases hp : p c <;> by_cases hq : q c <;>
      simp [List.filter_cons, hp, hq, ih]

/-- A concrete filled report record used to exhibit renderer behaviour. -/
def sampleReport : AnaliseAcionaria :=
  { data_relatorio := "1999-12-31"
    empresa := "Netflix - NFLX"
    valor_atual_acao := "USD 100.00"
    sumario_executivo := "Resumo executivo."
    noticias_relevantes := ["Noticia um.", "Noticia dois.", "Noticia tres."]
    analise_financeira_resumida := "Sem dados."
    sentimento_geral := "Positivo"
    recomendacao_simplificada := "Comprar" }

/-! ### Claims -/

/-- Claim C3: the document-fact stub is a deterministic function of the URL
string alone: an empty string or a string containing one of the no-URL
markers always returns the fixed "no data" sentence; otherwise a string
containing a known ticker substring returns the corresponding hard-coded
financial paragraph (NFLX checked before TSLA); and every other non-empty
URL falls through to the generic third paragraph. -/
theorem c3_stub_url_policy (url : String) :
    ((url = "" ∨ hasSubstr "N/A" url = true ∨ hasSubstr "Sem URL" url = true) →
      consult_document_rag url = noDataMsg)
  ∧ (url ≠ "" → hasSubstr "N/A" url = false → hasSubstr "Sem URL" url = false →
      hasSubstr "NFLX" url = true →
      consult_document_rag url = nflxRag)
  ∧ (url ≠ "" → hasSubstr "N/A" url = false → hasSubstr "Sem URL" url = false →
      hasSubstr "NFLX" url = false → hasSubstr "TSLA" url = true →
      consult_document_rag url = tslaRag)
  ∧ (url ≠ "" → hasSubstr "N/A" url = false → hasSubstr "Sem URL" url = false →
      hasSubstr "NFLX" url = false → hasSubstr "TSLA" url = false →
      consult_document_rag url = genericRag) := by
  refine ⟨?_, ?_, ?_, ?_⟩
  · rintro (h | h | h)
    · simp [consult_document_rag, h]
    · simp [consult_document_rag, h]
    · simp [consult_document_rag, h]
  · intro h0 h1 h2 h3
    have hb : (url == "") = false := beq_eq_false_iff_ne.mpr h0
    simp [consult_document_rag, hb, h1, h2, h3]
  · intro h0 h1 h2 h3 h4
    have hb : (url == "") = false := beq_eq_false_iff_ne.mpr h0
    simp [consult_document_rag, hb, h1, h2, h3, h4]
  · intro h0 h1 h2 h3 h4
    have hb : (url == "") = false := beq_eq_false_iff_ne.mpr h0
    simp [consult_document_rag, hb, h1, h2, h3, h4]

/-- Witness for C3: each branch of the stub policy observed at a concrete
URL. -/
theorem c3_stub_url_policy_witness :
    consult_document_rag "N/A - Sem URL" = noDataMsg
  ∧ consult_document_rag "https://ir.example.com/NFLX-10K.pdf" = nflxRag
  ∧ consult_document_rag "https://ir.example.com/TSLA-10K.pdf" = tslaRag
  ∧ consult_document_rag "https://ir.example.com/ABCD-10K.pdf" = genericRag :=
  ⟨(c3_stub_url_policy "N/A - Sem URL").1 (Or.inr (Or.inl (by decide))),
   (c3_stub_url_policy "https://ir.example.com/NFLX-10K.pdf").2.1
     (by decide) (by decide) (by decide) (by decide),
   (c3_stub_url_policy "https://ir.example.com/TSLA-10K.pdf").2.2.1
     (by decide) (by decide) (by decide) (by decide) (by decide),
   (c3_stub_url_policy "https://ir.example.com/ABCD-10K.pdf").2.2.2
     (by decide) (by decide) (by decide) (by decide) (by decide)⟩

/-- Claim C6: loading a missing input file creates the file populated with
exactly the 2 default rows and returns those same 2 records; loading the
now-existing file a second time returns the same 2 records; and loading
any well-formed CSV of N rows returns exactly those N records in file
order. -/
theorem c6_loader_read_or_initialize :
    (ler_lista_empresas_csv .missing = .ok (exemplo_data, .present exemplo_data)
       ∧ exemplo_data.length = 2)
  ∧ ler_lista_empresas_csv (.present exemplo_data)
       = .ok (exemplo_data, .present exemplo_data)
  ∧ ∀ rows : List Row,
       ler_lista_empresas_csv (.present rows) = .ok (rows, .present rows) :=
  ⟨⟨rfl, rfl⟩, rfl, fun _ => rfl⟩

/-- Claim C8: the loader catches only the file-not-found condition (it then
initializes the file); any other I/O error on the input file propagates out
of the loader, and the whole run then aborts with that error before any
company is processed. -/
theorem c8_loader_propagates_other_io_errors :
    (∀ msg : String, ler_lista_empresas_csv (.unreadable msg) = .error msg)
  ∧ (∀ (today msg : String) (outcomes : List (ResearchOutcome × ReportOutcome)),
       runMain today (.unreadable msg) outcomes = .error msg)
  ∧ ler_lista_empresas_csv .missing = .ok (exemplo_data, .present exemplo_data) :=
  ⟨fun _ => rfl, fun _ _ _ => rfl, rfl⟩

/-- Claim C9: if any loaded CSV row lacks one of the keys `Empresa`,
`Ticker` or `Relatorio_URL`, the driver loop's dictionary accesses raise an
uncaught key error outside both per-company exception handlers, aborting
the entire run — rows after the defective one are never processed,
whatever their research/report outcomes would have been. -/
theorem c9_missing_key_aborts_run
    (today : String) (files : Files)
    (pre : List (Row × ResearchOutcome × ReportOutcome))
    (row : Row) (ro : ResearchOutcome) (po : ReportOutcome)
    (rest : List (Row × ResearchOutcome × ReportOutcome))
    (fs : Files) (n : Nat) (tr : List IterResult)
    (hpre : processCompanies today files pre = .ok (fs, n, tr))
    (hbad : lookupKey row "Empresa" = none ∨ lookupKey row "Ticker" = none ∨
            lookupKey row "Relatorio_URL" = none) :
    ∃ m, processCompanies today files (pre ++ (row, ro, po) :: rest) = .error m := by
  have hstep : ∃ m0, ∀ g : Files,
      processCompanies today g ((row, ro, po) :: rest) = .error m0 := by
    rcases hbad with h | h | h
    · exact ⟨"KeyError: Empresa", fun g => by simp [processCompanies, h]⟩
    · cases hE : lookupKey row "Empresa" with
      | none => exact ⟨"KeyError: Empresa", fun g => by simp [processCompanies, hE]⟩
      | some vE => exact ⟨"KeyError: Ticker", fun g => by simp [processCompanies, hE, h]⟩
    · cases hE : lookupKey row "Empresa" with
      | none => exact ⟨"KeyError: Empresa", fun g => by simp [processCompanies, hE]⟩
      | some vE =>
        cases hT : lookupKey row "Ticker" with
        | none => exact ⟨"KeyError: Ticker", fun g => by simp [processCompanies, hE, hT]⟩
        | some vT =>
          exact ⟨"KeyError: Relatorio_URL", fun g => by simp [processCompanies, hE, hT, h]⟩
  obtain ⟨m0, hm0⟩ := hstep
  refine ⟨m0, ?_⟩
  rw [processCompanies_append, hpre]
  simp [hm0 fs]

/-- Witness for C9: a concrete run whose second row lacks the `Ticker`
key aborts with a key error even though the first row was processed and
a third row was still pending. -/
theorem c9_missing_key_aborts_run_witness :
    ∃ m, processCompanies "2026-10-12" []
      ([([("Empresa", "Netflix"), ("Ticker", "NFLX"), ("Relatorio_URL", "N/A - Sem URL")],
         .err "rede fora", .err "nao usado")] ++
       ([("Empresa", "Tesla")], ResearchOutcome.ok "fatos", ReportOutcome.err "x") ::
       [([("Empresa", "Apple"), ("Ticker", "AAPL"), ("Relatorio_URL", "N/A - Sem URL")],
         .ok "fatos", .err "y")]) = .error m :=
  c9_missing_key_aborts_run "2026-10-12" []
    [([("Empresa", "Netflix"), ("Ticker", "NFLX"), ("Relatorio_URL", "N/A - Sem URL")],
      .err "rede fora", .err "nao usado")]
    [("Empresa", "Tesla")] (ResearchOutcome.ok "fatos") (ReportOutcome.err "x")
    [([("Empresa", "Apple"), ("Ticker", "AAPL"), ("Relatorio_URL", "N/A - Sem URL")],
      .ok "fatos", .err "y")]
    [] 0
    [⟨"Netflix (NFLX)", "Erro na pesquisa web para Netflix (NFLX): rede fora",
      some "❌ [ERRO NA PESQUISA] Falha na coleta de dados para Netflix (NFLX).",
      none, false⟩]
    rfl (Or.inr (Or.inl rfl))

/-- Claim C1 counterexample: a run over K = 1 companies whose research
step raises executes the `continue` on line 185, which jumps past the
`time.sleep(DELAY_SECONDS)` on line 240 — the run executes 0 sleeps, so
its total sleeping time 0 × DELAY_SECONDS is strictly below
K × DELAY_SECONDS, contradicting the claim. -/
theorem c1_pacing_counterexample :
    processCompanies "2026-10-12" []
      [([("Empresa", "Netflix"), ("Ticker", "NFLX"), ("Relatorio_URL", "N/A - Sem URL")],
        .err "quota excedida", .err "nao usado")] =
      .ok ([], 0,
        [⟨"Netflix (NFLX)", "Erro na pesquisa web para Netflix (NFLX): quota excedida",
          some "❌ [ERRO NA PESQUISA] Falha na coleta de dados para Netflix (NFLX).",
          none, false⟩])
  ∧ 0 * DELAY_SECONDS < 1 * DELAY_SECONDS :=
  ⟨rfl, by decide⟩

/-- Claim C1 (amended): the fixed pacing delay is executed after every
company whose research step returns normally — including companies whose
report step fails — but the `continue` in the research except-branch skips
the delay, so a completed run over K companies executes exactly one delay
per research-successful company (K minus the number of research failures),
never one per company. -/
theorem c1_amended_delay_per_research_success
    (today : String) (files : Files)
    (items : List (Row × ResearchOutcome × ReportOutcome))
    (fs : Files) (n : Nat) (tr : List IterResult)
    (h : processCompanies today files items = .ok (fs, n, tr)) :
    n = countResearchOk items := by
  induction items generalizing files fs n tr with
  | nil =>
    simp [processCompanies] at h
    simp [countResearchOk]
    omega
  | cons hd tl ih =>
    obtain ⟨row, ro, po⟩ := hd
    cases hE : lookupKey row "Empresa" with
    | none => simp [processCompanies, hE] at h
    | some empresa =>
    cases hT : lookupKey row "Ticker" with
    | none => simp [processCompanies, hE, hT] at h
    | some ticker =>
    cases hU : lookupKey row "Relatorio_URL" with
    | none => simp [processCompanies, hE, hT, hU] at h
    | some url =>
    cases ro with
    | err e =>
      simp only [processCompanies, hE, hT, hU] at h
      cases h1 : processCompanies today files tl with
      | error m => rw [h1] at h; simp at h
      | ok t =>
        obtain ⟨fs1, n1, tr1⟩ := t
        rw [h1] at h
        simp at h
        have := ih files fs1 n1 tr1 h1
        simp [countResearchOk, ResearchOutcome.isOk] at this ⊢
        omega
    | ok facts =>
      cases po with
      | err e =>
        simp only [processCompanies, hE, hT, hU] at h
        cases h1 : processCompanies today files tl with
        | error m => rw [h1] at h; simp at h
        | ok t =>
          obtain ⟨fs1, n1, tr1⟩ := t
          rw [h1] at h
          simp at h
          have := ih files fs1 n1 tr1 h1
          simp [countResearchOk, ResearchOutcome.isOk] at this ⊢
          omega
      | ok r =>
        simp only [processCompanies, hE, hT, hU] at h
        cases h1 : processCompanies today
            (writeFile files
              ("Relatorio_" ++ file_name_clean (empresa ++ " (" ++ ticker ++ ")") ++ ".md")
              (final_report_markdown today r)) tl with
        | error m => rw [h1] at h; simp at h
        | ok t =>
          obtain ⟨fs1, n1, tr1⟩ := t
          rw [h1] at h
          simp at h
          have := ih _ fs1 n1 tr1 h1
          simp [countResearchOk, ResearchOutcome.isOk] at this ⊢
          omega

/-- Witness for C1 (amended): a concrete completed run over two companies
with one research failure executes exactly one delay. -/
theorem c1_amended_delay_per_research_success_witness :
    (1 : Nat) = countResearchOk
      [([("Empresa", "Netflix"), ("Ticker", "NFLX"), ("Relatorio_URL", "N/A - Sem URL")],
        .ok "fatos coletados", .err "erro de schema"),
       ([("Empresa", "Tesla"), ("Ticker", "TSLA"), ("Relatorio_URL", "N/A - Sem URL")],
        .err "rede fora", .err "nao usado")] :=
  c1_amended_delay_per_research_success "2026-10-12" []
    [([("Empresa", "Netflix"), ("Ticker", "NFLX"), ("Relatorio_URL", "N/A - Sem URL")],
      .ok "fatos coletados", .err "erro de schema"),
     ([("Empresa", "Tesla"), ("Ticker", "TSLA"), ("Relatorio_URL", "N/A - Sem URL")],
      .err "rede fora", .err "nao usado")]
    [] 1
    [⟨"Netflix (NFLX)", "fatos coletados",
      some "❌ [ERRO NA GERAÇÃO] Falha na estruturação JSON do relatório para Netflix (NFLX): erro de schema",
      none, true⟩,
     ⟨"Tesla (TSLA)", "Erro na pesquisa web para Tesla (TSLA): rede fora",
      some "❌ [ERRO NA PESQUISA] Falha na coleta de dados para Tesla (TSLA).",
      none, false⟩]
    rfl

/-- Claim C2 counterexample: for a report record whose own
`data_relatorio` field differs from the render-day wall clock, the
rendered Markdown's date header shows the wall-clock date and the record's
`data_relatorio` value appears nowhere in the document — the header date
is recomputed from `date.today()` at render time (line 199), not taken
from `data_relatorio`. -/
theorem c2_date_counterexample :
    sampleReport.data_relatorio = "1999-12-31"
  ∧ hasSubstr "**Data da Análise:** 2026-10-12"
      (final_report_markdown "2026-10-12" sampleReport) = true
  ∧ hasSubstr "1999-12-31"
      (final_report_markdown "2026-10-12" sampleReport) = false :=
  ⟨rfl, by decide, by decide⟩

/-- Claim C2 (amended): the date in the Markdown title/date header is the
wall-clock date captured at render time; the record's `data_relatorio`
field is not used by the renderer at all (two records differing only in
`data_relatorio` render identically). -/
theorem c2_amended_header_date_is_wall_clock
    (today d2 : String) (r : AnaliseAcionaria) :
    final_report_markdown today r =
      final_report_markdown today { r with data_relatorio := d2 }
  ∧ final_report_markdown today r =
      ("\n# 📄 Relatório de Análise Acionária: " ++ r.empresa) ++
      ("\n**Data da Análise:** " ++ today) ++
      ("\n\n---\n\n## I. Sumário Executivo\n" ++ r.sumario_executivo ++
       "\n\n| Indicador | Detalhe |\n| :--- | :--- |\n| **Valor Atual da Ação** | **" ++
       r.valor_atual_acao ++
       "** |\n| **Recomendação** | **" ++ pyUpper r.recomendacao_simplificada ++
       "** |\n| **Sentimento Geral** | " ++ r.sentimento_geral ++
       " |\n\n---\n\n## II. Contexto e Notícias Relevantes\n### Destaques das Últimas Notícias\n* " ++
       joinSep "\n* " r.noticias_relevantes ++
       "\n\n---\n\n## III. Análise Fundamentalista (Resumo de Documentos Oficiais - RAG)\n" ++
       r.analise_financeira_resumida ++
       "\n\n---\n\n**Nota:** A análise fundamentalista foi extraída da URL fornecida e processada pela ferramenta RAG (atualmente em modo simulação).\n") := by
  refine ⟨rfl, ?_⟩
  simp only [final_report_markdown, String.append_assoc]

/-- Claim C7: the writer renders, in order: a title/date header, the
executive summary, the table with current price, upper-cased
recommendation and sentiment, the bulleted news list, the
financial-analysis block and the closing simulated-extraction disclaimer;
the output file name is the fixed prefix `Relatorio_` followed by the
company label with spaces replaced by underscores and parenthesis
characters removed (plus the `.md` extension); and writing a file of an
existing name overwrites it. -/
theorem c7_report_writer (today : String) (r : AnaliseAcionaria) :
    (∃ s0 s1 s2 s3 s4 s5 s6 s7 s8 : String,
       final_report_markdown today r =
         s0 ++ r.empresa ++ s1 ++ today ++ s2 ++ r.sumario_executivo ++ s3 ++
         r.valor_atual_acao ++ s4 ++ pyUpper r.recomendacao_simplificada ++ s5 ++
         r.sentimento_geral ++ s6 ++ joinSep "\n* " r.noticias_relevantes ++ s7 ++
         r.analise_financeira_resumida ++ s8
     ∧ hasSubstr "# 📄 Relatório de Análise Acionária:" s0 = true
     ∧ hasSubstr "**Data da Análise:**" s1 = true
     ∧ hasSubstr "## I. Sumário Executivo" s2 = true
     ∧ hasSubstr "| Indicador | Detalhe |" s3 = true
     ∧ hasSubstr "**Valor Atual da Ação**" s3 = true
     ∧ hasSubstr "**Recomendação**" s4 = true
     ∧ hasSubstr "**Sentimento Geral**" s5 = true
     ∧ hasSubstr "### Destaques das Últimas Notícias\n* " s6 = true
     ∧ hasSubstr "## III. Análise Fundamentalista" s7 = true
     ∧ hasSubstr "modo simulação" s8 = true)
  ∧ (∀ label : String,
       (file_name_clean label).data =
         (label.data.map (fun c => if c == ' ' then '_' else c)).filter
           (fun c => c != '(' && c != ')'))
  ∧ (∀ (files : Files) (name c1 c2 : String),
       readFile (writeFile files name c1) name = some c1
     ∧ readFile (writeFile (writeFile files name c1) name c2) name = some c2)
  ∧ (∀ (facts : String) (files : Files),
       processCompanies today files
         [([("Empresa", "Netflix"), ("Ticker", "NFLX"), ("Relatorio_URL", "N/A - Sem URL")],
           .ok facts, .ok r)] =
         .ok (writeFile files "Relatorio_Netflix_NFLX.md" (final_report_markdown today r), 1,
              [⟨"Netflix (NFLX)", facts, none, some "Relatorio_Netflix_NFLX.md", true⟩])) := by
  refine ⟨?_, ?_, ?_, ?_⟩
  · refine ⟨"\n# 📄 Relatório de Análise Acionária: ",
      "\n**Data da Análise:** ",
      "\n\n---\n\n## I. Sumário Executivo\n",
      "\n\n| Indicador | Detalhe |\n| :--- | :--- |\n| **Valor Atual da Ação** | **",
      "** |\n| **Recomendação** | **",
      "** |\n| **Sentimento Geral** | ",
      " |\n\n---\n\n## II. Contexto e Notícias Relevantes\n### Destaques das Últimas Notícias\n* ",
      "\n\n---\n\n## III. Análise Fundamentalista (Resumo de Documentos Oficiais - RAG)\n",
      "\n\n---\n\n**Nota:** A análise fundamentalista foi extraída da URL fornecida e processada pela ferramenta RAG (atualmente em modo simulação).\n",
      rfl, by decide, by decide, by decide, by decide, by decide, by decide, by decide,
      by decide, by decide, by decide⟩
  · intro label
    simp only [file_name_clean, removeChar, replaceChar]
    exact filter_filter_chars _ _ _
  · intro files name c1 c2
    constructor <;> simp [readFile, writeFile]
  · intro facts files
    rfl

/-- Claim C10: the placeholder report URL of both auto-created default CSV
rows satisfies the stub's no-URL condition, so the stub returns the fixed
"no data" sentence for every default row — which is distinct from both
ticker paragraphs and from the generic paragraph. -/
theorem c10_default_rows_hit_no_url_branch :
    exemplo_data.map (fun row => (lookupKey row "Relatorio_URL").map consult_document_rag)
      = [some noDataMsg, some noDataMsg]
  ∧ noDataMsg ≠ nflxRag ∧ noDataMsg ≠ tslaRag ∧ noDataMsg ≠ genericRag :=
  ⟨by decide, by decide, by decide, by decide⟩

/-- Claim C4: for every company whose research step raises, the step
substitutes the textual error placeholder containing the company's label
and the error detail into `fatos_consolidados`, no output file is created
for that company (the file store is handed to the rest of the loop
unchanged and the iteration records no write), and the loop proceeds to
the next company. -/
theorem c4_research_failure_skips_company
    (today : String) (files : Files) (row : Row)
    (rest : List (Row × ResearchOutcome × ReportOutcome))
    (e empresa ticker url : String) (po : ReportOutcome)
    (hE : lookupKey row "Empresa" = some empresa)
    (hT : lookupKey row "Ticker" = some ticker)
    (hU : lookupKey row "Relatorio_URL" = some url) :
    (∀ (fs : Files) (n : Nat) (tr : List IterResult),
       processCompanies today files rest = .ok (fs, n, tr) →
       processCompanies today files ((row, .err e, po) :: rest) =
         .ok (fs, n,
           ⟨empresa ++ " (" ++ ticker ++ ")",
            "Erro na pesquisa web para " ++ (empresa ++ " (" ++ ticker ++ ")") ++ ": " ++ e,
            some ("❌ [ERRO NA PESQUISA] Falha na coleta de dados para " ++
                  (empresa ++ " (" ++ ticker ++ ")") ++ "."),
            none, false⟩ :: tr))
  ∧ hasSubstr (empresa ++ " (" ++ ticker ++ ")")
      ("Erro na pesquisa web para " ++ (empresa ++ " (" ++ ticker ++ ")") ++ ": " ++ e) = true
  ∧ hasSubstr e
      ("Erro na pesquisa web para " ++ (empresa ++ " (" ++ ticker ++ ")") ++ ": " ++ e) = true := by
  refine ⟨?_, ?_, ?_⟩
  · intro fs n tr h
    simp only [processCompanies, hE, hT, hU, h]
  · rw [String.append_assoc
      ("Erro na pesquisa web para " ++ (empresa ++ " (" ++ ticker ++ ")")) ": " e]
    exact hasSubstr_sandwich _ _ _
  · exact hasSubstr_of_suffix _ _

/-- Witness for C4: a concrete research failure for the first default row
is skipped, leaves no file, and the concrete placeholder contains the
label and the error detail. -/
theorem c4_research_failure_skips_company_witness :
    processCompanies "2026-10-12" []
      [([("Empresa", "Netflix"), ("Ticker", "NFLX"), ("Relatorio_URL", "N/A - Sem URL")],
        .err "quota excedida", .err "nunca atingido")] =
      .ok ([], 0,
        [⟨"Netflix (NFLX)",
          "Erro na pesquisa web para Netflix (NFLX): quota excedida",
          some "❌ [ERRO NA PESQUISA] Falha na coleta de dados para Netflix (NFLX).",
          none, false⟩]) :=
  (c4_research_failure_skips_company "2026-10-12" []
      [("Empresa", "Netflix"), ("Ticker", "NFLX"), ("Relatorio_URL", "N/A - Sem URL")]
      [] "quota excedida" "Netflix" "NFLX" "N/A - Sem URL" (.err "nunca atingido")
      rfl rfl rfl).1 [] 0 [] rfl

/-- Claim C5: for every company whose report compilation or file write
raises, the error is caught and logged with the company's label, no output
file is produced for that company, processing of subsequent companies
continues from the same unchanged file store (so files already written for
previous companies remain untouched), and the iteration still reaches the
sleep. -/
theorem c5_report_failure_logged_and_skipped
    (today : String) (files : Files) (row : Row)
    (rest : List (Row × ResearchOutcome × ReportOutcome))
    (facts e empresa ticker url : String)
    (hE : lookupKey row "Empresa" = some empresa)
    (hT : lookupKey row "Ticker" = some ticker)
    (hU : lookupKey row "Relatorio_URL" = some url) :
    (∀ (fs : Files) (n : Nat) (tr : List IterResult),
       processCompanies today files rest = .ok (fs, n, tr) →
       processCompanies today files ((row, .ok facts, .err e) :: rest) =
         .ok (fs, n + 1,
           ⟨empresa ++ " (" ++ ticker ++ ")", facts,
            some ("❌ [ERRO NA GERAÇÃO] Falha na estruturação JSON do relatório para " ++
                  (empresa ++ " (" ++ ticker ++ ")") ++ ": " ++ e),
            none, true⟩ :: tr))
  ∧ hasSubstr (empresa ++ " (" ++ ticker ++ ")")
      ("❌ [ERRO NA GERAÇÃO] Falha na estruturação JSON do relatório para " ++
       (empresa ++ " (" ++ ticker ++ ")") ++ ": " ++ e) = true := by
  refine ⟨?_, ?_⟩
  · intro fs n tr h
    simp only [processCompanies, hE, hT, hU, h]
  · rw [String.append_assoc
      ("❌ [ERRO NA GERAÇÃO] Falha na estruturação JSON do relatório para " ++
       (empresa ++ " (" ++ ticker ++ ")")) ": " e]
    exact hasSubstr_sandwich _ _ _

/-- Witness for C5: a concrete report failure on the first default row,
after a previously written file, leaves that file untouched, writes
nothing new, and logs with the company label. -/
theorem c5_report_failure_logged_and_skipped_witness :
    processCompanies "2026-10-12" [("Relatorio_Anterior.md", "conteudo antigo")]
      [([("Empresa", "Netflix"), ("Ticker", "NFLX"), ("Relatorio_URL", "N/A - Sem URL")],
        .ok "fatos coletados", .err "falha de schema")] =
      .ok ([("Relatorio_Anterior.md", "conteudo antigo")], 1,
        [⟨"Netflix (NFLX)", "fatos coletados",
          some "❌ [ERRO NA GERAÇÃO] Falha na estruturação JSON do relatório para Netflix (NFLX): falha de schema",
          none, true⟩]) :=
  (c5_report_failure_logged_and_skipped "2026-10-12"
      [("Relatorio_Anterior.md", "conteudo antigo")]
      [("Empresa", "Netflix"), ("Ticker", "NFLX"), ("Relatorio_URL", "N/A - Sem URL")]
      [] "fatos coletados" "falha de schema" "Netflix" "NFLX" "N/A - Sem URL"
      rfl rfl rfl).1 [("Relatorio_Anterior.md", "conteudo antigo")] 0 [] rfl

end Analista
